import Mathlib

/-! Mediatek power HAL (`power/power.c`).

A shallow embedding of the power HAL shim.  Every C function becomes a Lean
function from its arguments and the answers the operating system gives to its
system calls, to its return value and the ordered list of system calls, log
lines and allocations it performs (its trace).  Properties about open
descriptors are read off the trace.
-/

namespace MtkPower

/-! ## Platform constants (values of the Linux / Android headers) -/

/-- Character-device entry type of `<dirent.h>`. -/
def DT_CHR : Nat := 2

/-- Write-only open flag of `<fcntl.h>`. -/
def O_WRONLY : Nat := 1

/-- Read-write open flag of `<fcntl.h>`. -/
def O_RDWR : Nat := 2

/-- Synchronisation event type of `<linux/input.h>`. -/
def EV_SYN : Nat := 0

/-- Configuration-sync event code of `<linux/input.h>`. -/
def SYN_CONFIG : Nat := 1

/-- Out-of-memory error number of `<errno.h>`. -/
def ENOMEM : Int := 12

/-- Invalid-argument error number of `<errno.h>`. -/
def EINVAL : Int := 22

/-- Double-tap-to-wake member of `feature_t` in `<hardware/power.h>`. -/
def POWER_FEATURE_DOUBLE_TAP_TO_WAKE : Int := 1

/-- Sustained-performance member of `power_hint_t` in `<hardware/power.h>`. -/
def POWER_HINT_SUSTAINED_PERFORMANCE : Int := 6

/-- VR-mode member of `power_hint_t` in `<hardware/power.h>`. -/
def POWER_HINT_VR_MODE : Int := 7

/-- Module identifier of `<hardware/power.h>`. -/
def POWER_HARDWARE_MODULE_ID : String := "power"

/-- Device tag of `<hardware/hardware.h>`: the bytes `HWDT`. -/
def HARDWARE_DEVICE_TAG : Nat := 0x48574454

/-- Power module API version 0.3 of `<hardware/power.h>`. -/
def POWER_MODULE_API_VERSION_0_3 : Nat := 0x0003

/-- HAL API version 1.0 of `<hardware/hardware.h>`. -/
def HARDWARE_HAL_API_VERSION : Nat := 0x0100

/-- Size of the local buffer `char name[80]` of `open_ts_input`. -/
def NAME_SIZE : Nat := 80

/-! ## Data model -/

/-- Android log priorities used by the file (`ALOGD`, `ALOGI`, `ALOGW`, `ALOGE`). -/
inductive Prio where
  | debug
  | info
  | warn
  | error
  deriving DecidableEq

/-- One argument of a log line. -/
inductive Arg where
  | int (v : Int)
  | str (s : String)
  | strerror
  deriving DecidableEq

/-- The `struct input_event` fields the source assigns; its `time` field is
never assigned by the source and is left out. -/
structure input_event where
  type : Nat
  code : Nat
  value : Int
  deriving DecidableEq

/-- What a `write` call is handed: the bytes of a C string with a byte count,
or one input event record. -/
inductive Payload where
  | str (s : List Char) (count : Nat)
  | event (ev : input_event)
  deriving DecidableEq

/-- One observable action of the program, with the answer the system gave. -/
inductive Sys where
  | opendir (path : String) (ok : Bool)
  | readdir (ent : Option String)
  | closedir
  | openFile (path : String) (flags : Nat) (ret : Int)
  | ioctl (fd : Int) (ret : Int)
  | write (fd : Int) (payload : Payload) (ret : Int)
  | close (fd : Int)
  | calloc (ok : Bool)
  | log (prio : Prio) (fmt : String) (args : List Arg)
  deriving DecidableEq

/-- One entry of `/dev/input` as `readdir` yields it, together with what the
system answers for that node: `openResult` is the descriptor `open` returns
(`none` when `open` fails and returns `-1`), `ioctlResult` is what the
`EVIOCGNAME` query returns on the open descriptor, and `devName` is the name
the driver reports (a C string, so the list holds no NUL). -/
structure Entry where
  d_type : Nat
  d_name : String
  openResult : Option Nat
  ioctlResult : Int
  devName : List Char
  deriving DecidableEq

/-- The function-pointer values `power_open` stores. -/
inductive Handler where
  | power_init
  | power_set_interactive
  | power_set_feature
  | power_hint
  deriving DecidableEq

/-- The fields of `power_module_t` that `power_open` touches; a null function
pointer is `none`. -/
structure power_module_t where
  tag : Nat
  module_api_version : Nat
  hal_api_version : Nat
  init : Option Handler
  setInteractive : Option Handler
  setFeature : Option Handler
  powerHint : Option Handler
  get_number_of_platform_modes : Option Handler
  get_platform_low_power_stats : Option Handler
  get_voter_list : Option Handler
  deriving DecidableEq

/-! ## C library and kernel behaviour the functions rely on -/

/-- C `strcmp` on two C strings (given without their terminating NUL), up to the
sign of the result: `0` when equal, `-1` / `1` by the first differing byte. -/
def strcmp : List Char → List Char → Int
  | [], [] => 0
  | [], _ :: _ => -1
  | _ :: _, [] => 1
  | a :: as, b :: bs =>
    if a = b then strcmp as bs else if a.toNat < b.toNat then -1 else 1

/-- C `strlen` on a C string given without its terminating NUL. -/
def strlen (s : List Char) : Nat := s.length

/-- The descriptor value `open` returns for an entry: the descriptor, or `-1`. -/
def openRet (e : Entry) : Int :=
  match e.openResult with
  | some n => (n : Int)
  | none => -1

/-- The call `ioctl(fd, EVIOCGNAME(sizeof(name) - 1), &name)` on the zeroed
buffer `name`: the return value and the C string the buffer holds afterwards.
On an invalid descriptor the call fails with `-1` and leaves the buffer empty;
otherwise a positive result means at most `sizeof(name) - 1` bytes of the
device name were copied (the last byte of the buffer stays NUL). -/
def EVIOCGNAME (fd : Int) (e : Entry) : Int × List Char :=
  if fd < 0 then (-1, [])
  else if 0 < e.ioctlResult then (e.ioctlResult, e.devName.take (NAME_SIZE - 1))
  else (e.ioctlResult, [])

/-! ## The functions of `power.c` -/

/-- `power_init`: logs when the module pointer is non-null. -/
def power_init (module : Bool) : List Sys :=
  if module then [Sys.log Prio.info "power_init" []] else []

/-- `sysfs_write(path, s)`: `openResult` is what `open(path, O_WRONLY)` gives,
`len` the value the `write` call leaves in `len`. -/
def sysfs_write (path : String) (s : List Char) (openResult : Option Nat) (len : Int) : Int × List Sys :=
  let ret : Int := 0
  let fd : Int := match openResult with
    | some n => (n : Int)
    | none => -1
  let t := [Sys.openFile path O_WRONLY fd]
  if fd < 0 then
    (-1, t ++ [Sys.log Prio.error "Error opening %s: %s\n" [Arg.str path, Arg.strerror]])
  else
    let t := t ++ [Sys.write fd (Payload.str s (strlen s)) len]
    if len < 0 then
      let t := t ++ [Sys.log Prio.error "Error writing to %s: %s\n" [Arg.str path, Arg.strerror]]
      let ret : Int := -1
      (ret, t ++ [Sys.close fd])
    else
      (ret, t ++ [Sys.close fd])

/-- `power_set_interactive`: logs when the module pointer is non-null. -/
def power_set_interactive (module : Bool) (on_ : Int) : List Sys :=
  if module then [Sys.log Prio.info "power_set_interactive on:%d" [Arg.int on_]] else []

/-- The `strcmp` chain of `open_ts_input` on the queried name. -/
def nameMatches (name : List Char) : Bool :=
  strcmp name "atmel_mxt_ts".data == 0 || strcmp name "fts_ts".data == 0 ||
  strcmp name "ft5x46".data == 0 || strcmp name "synaptics_dsx".data == 0 ||
  strcmp name "NVTCapacitiveTouchScreen".data == 0

/-- The `while ((ent = readdir(dir)) != NULL)` loop of `open_ts_input`, started
with the current value of `fd` on the entries `readdir` has still to yield.
Returns the value of `fd` when the loop is left and the actions performed. -/
def scan (fd : Int) : List Entry → Int × List Sys
  | [] => (fd, [Sys.readdir none])
  | e :: rest =>
    if e.d_type = DT_CHR then
      let fd1 := openRet e
      let q := EVIOCGNAME fd1 e
      let t := [Sys.readdir (some e.d_name),
                Sys.openFile ("/dev/input/" ++ e.d_name) O_RDWR fd1,
                Sys.ioctl fd1 q.1]
      let r := scan (-1) rest
      if 0 < q.1 then
        if nameMatches q.2 = true then
          (fd1, t)
        else
          (r.1, t ++ Sys.close fd1 :: r.2)
      else
        (r.1, t ++ Sys.close fd1 :: r.2)
    else
      let r := scan fd rest
      (r.1, Sys.readdir (some e.d_name) :: r.2)

/-- `open_ts_input()`: `dir` is `none` when `opendir("/dev/input")` fails, and
otherwise the entries in the order `readdir` yields them. -/
def open_ts_input (dir : Option (List Entry)) : Int × List Sys :=
  let fd : Int := -1
  match dir with
  | none => (fd, [Sys.opendir "/dev/input" false])
  | some ents =>
    let r := scan fd ents
    (r.1, Sys.opendir "/dev/input" true :: r.2 ++ [Sys.closedir])

/-- `power_set_feature(module, feature, state)`.  `module` tells whether the
module pointer is non-null.  The two wake-mode values are macros of headers
outside this file and are taken as parameters; `dir` is what `open_ts_input`
finds under `/dev/input` and `wr` what the event `write` returns (the source
discards it). -/
def power_set_feature (INPUT_EVENT_WAKUP_MODE_ON INPUT_EVENT_WAKUP_MODE_OFF : Int)
    (module : Bool) (feature : Int) (state : Int)
    (dir : Option (List Entry)) (wr : Int) : List Sys :=
  let t := if module then
      [Sys.log Prio.info "power_set_feature feature:%d, state:%d" [Arg.int feature, Arg.int state]]
    else []
  if feature = POWER_FEATURE_DOUBLE_TAP_TO_WAKE then
    let r := open_ts_input dir
    let fd := r.1
    let t := t ++ r.2
    if fd = -1 then
      t ++ [Sys.log Prio.warn
        "DT2W won\x27t work because no supported touchscreen input devices were found" []]
    else
      let ev : input_event :=
        { type := EV_SYN
          code := SYN_CONFIG
          value := if state ≠ 0 then INPUT_EVENT_WAKUP_MODE_ON else INPUT_EVENT_WAKUP_MODE_OFF }
      t ++ [Sys.write fd (Payload.event ev) wr, Sys.close fd]
  else
    t

/-- `power_hint(module, hint, data)`: `data` is `none` for a null pointer and
otherwise the integer it points to. -/
def power_hint (module : Bool) (hint : Int) (data : Option Int) : List Sys :=
  let param : Int := match data with
    | some v => v
    | none => 0
  if hint = POWER_HINT_SUSTAINED_PERFORMANCE then
    if module then
      if param ≠ 0 then [Sys.log Prio.info "POWER_HINT_SUSTAINED_PERFORMANCE, on" []]
      else [Sys.log Prio.info "POWER_HINT_SUSTAINED_PERFORMANCE, off" []]
    else []
  else if hint = POWER_HINT_VR_MODE then
    if module then
      if param ≠ 0 then [Sys.log Prio.info "POWER_HINT_VR_MODE, on" []]
      else [Sys.log Prio.info "POWER_HINT_VR_MODE, off" []]
    else []
  else []

/-- The record `calloc(1, sizeof(power_module_t))` returns: every field zero. -/
def zeroed : power_module_t :=
  { tag := 0, module_api_version := 0, hal_api_version := 0,
    init := none, setInteractive := none, setFeature := none, powerHint := none,
    get_number_of_platform_modes := none, get_platform_low_power_stats := none,
    get_voter_list := none }

/-- `power_open(module, name, device)`: `device` is the value `*device` holds
before the call, `alloc` tells whether `calloc` succeeds.  Returns the return
value, the value `*device` holds after the call, and the actions performed. -/
def power_open (module : Bool) (name : String) (device : Option power_module_t)
    (alloc : Bool) : Int × Option power_module_t × List Sys :=
  let t := if module then
      [Sys.log Prio.info "%s: enter; name=%s" [Arg.str "power_open", Arg.str name]]
    else []
  let retval : Int := 0
  if strcmp name.data POWER_HARDWARE_MODULE_ID.data = 0 then
    let t := t ++ [Sys.calloc alloc]
    if alloc then
      let dev := zeroed
      let dev := { dev with tag := HARDWARE_DEVICE_TAG }
      let dev := { dev with module_api_version := POWER_MODULE_API_VERSION_0_3 }
      let dev := { dev with hal_api_version := HARDWARE_HAL_API_VERSION }
      let dev := { dev with init := some Handler.power_init }
      let dev := { dev with powerHint := some Handler.power_hint }
      let dev := { dev with setInteractive := some Handler.power_set_interactive }
      let dev := { dev with setFeature := some Handler.power_set_feature }
      let dev := { dev with get_number_of_platform_modes := none }
      let dev := { dev with get_platform_low_power_stats := none }
      let dev := { dev with get_voter_list := none }
      (retval, some dev,
        t ++ [Sys.log Prio.debug "%s: exit %d" [Arg.str "power_open", Arg.int retval]])
    else
      let retval : Int := -ENOMEM
      (retval, device,
        t ++ [Sys.log Prio.debug "%s: exit %d" [Arg.str "power_open", Arg.int retval]])
  else
    let retval : Int := -EINVAL
    (retval, device,
      t ++ [Sys.log Prio.debug "%s: exit %d" [Arg.str "power_open", Arg.int retval]])

/-! ## Reading a trace -/

/-- Effect of one action on the list of open device descriptors: a successful
`open` adds its descriptor, `close` removes the descriptor it is given. -/
def track (live : List Int) : Sys → List Int
  | Sys.openFile _ _ ret => if 0 ≤ ret then ret :: live else live
  | Sys.close fd => live.erase fd
  | _ => live

/-- The device descriptors a trace has opened and not closed. -/
def openHandles (t : List Sys) : List Int := t.foldl track []

/-- Effect of one action on the number of open directory streams: a
successful `opendir` adds one, `closedir` takes one away. -/
def trackDir (n : Int) : Sys → Int
  | Sys.opendir _ true => n + 1
  | Sys.closedir => n - 1
  | _ => n

/-- The number of directory streams a trace has opened and not closed. -/
def openDirs (t : List Sys) : Int := t.foldl trackDir 0

/-- Whether the action is a `write`. -/
def isWrite : Sys → Bool
  | Sys.write _ _ _ => true
  | _ => false

/-- Whether the action is a `close`. -/
def isClose : Sys → Bool
  | Sys.close _ => true
  | _ => false

/-- Whether the action is a log line. -/
def isLog : Sys → Bool
  | Sys.log _ _ _ => true
  | _ => false

/-- Whether the action is `readdir`. -/
def isReaddir : Sys → Bool
  | Sys.readdir _ => true
  | _ => false

/-- Descriptor discipline of a trace run from the open descriptors `live`: at
every point at most one device descriptor is open, and none is open when
`readdir` is called. -/
def disciplined (live : List Int) : List Sys → Bool
  | [] => decide (live.length ≤ 1)
  | a :: t =>
    decide (live.length ≤ 1) && (!isReaddir a || live.isEmpty) && disciplined (track live a) t

/-- The actions of a trace other than its log lines. -/
def effects (t : List Sys) : List Sys := t.filter (fun a => !isLog a)

/-! ## The locator as the specification words it -/

/-- The allow-list of five driver names, as the specification lists it. -/
def specAllowList : List (List Char) :=
  ["atmel_mxt_ts".data, "fts_ts".data, "ft5x46".data, "synaptics_dsx".data,
   "NVTCapacitiveTouchScreen".data]

/-- Whether the entry is a character device, the test `ent->d_type == DT_CHR`. -/
def isChr (e : Entry) : Bool := decide (e.d_type = DT_CHR)

/-- Whether the name query made on the entry succeeds: the query is made on the
descriptor `open` returned for it, and `EVIOCGNAME` returns the number of bytes
it copied, so success is a positive result (the test `> 0` of the source). -/
def querySucceeds (e : Entry) : Bool := decide (0 < (EVIOCGNAME (openRet e) e).1)

/-- The entries the specification selects: a character device whose name
query succeeds and whose name is on the allow-list. -/
def specMatch (e : Entry) : Bool :=
  decide (e.d_type = DT_CHR) && querySucceeds e && decide (e.devName ∈ specAllowList)

/-- The locator as the specification words it: the handle of the first
selected entry in enumeration order, the sentinel `-1` when the directory
cannot be opened or no entry is selected. -/
def specLocate (dir : Option (List Entry)) : Int :=
  match dir with
  | none => -1
  | some ents =>
    match ents.find? specMatch with
    | some e => openRet e
    | none => -1

/-! ## Helpers for stating the results -/

/-- The log line `power_set_feature` starts with when its module pointer is
non-null. -/
def featureEntryLog (module : Bool) (feature state : Int) : List Sys :=
  if module then
    [Sys.log Prio.info "power_set_feature feature:%d, state:%d" [Arg.int feature, Arg.int state]]
  else []

/-- The event the specification asks for: type `EV_SYN`, code `SYN_CONFIG`,
value off for state zero and on for any other state. -/
def wakeEvent (on_ off : Int) (state : Int) : input_event :=
  { type := EV_SYN, code := SYN_CONFIG, value := if state = 0 then off else on_ }

/-- Example entry: a character device whose driver reports `fts_ts`. -/
def devTouch : Entry :=
  { d_type := DT_CHR, d_name := "event2", openResult := some 7, ioctlResult := 7,
    devName := "fts_ts".data }

/-- Example entry: a character device whose driver reports `gpio-keys`. -/
def devKeys : Entry :=
  { d_type := DT_CHR, d_name := "event0", openResult := some 7, ioctlResult := 10,
    devName := "gpio-keys".data }

/-- Example entry: a directory, not a character device. -/
def devDir : Entry :=
  { d_type := 4, d_name := "by-path", openResult := some 7, ioctlResult := 7,
    devName := "fts_ts".data }

/-- Example entry: a character device that cannot be opened. -/
def devBusy : Entry :=
  { d_type := DT_CHR, d_name := "event1", openResult := none, ioctlResult := 7,
    devName := "fts_ts".data }

/-! ## Lemmas -/

/-- `strcmp` returns 0 exactly on equal strings. -/
theorem strcmp_eq_zero_iff (a b : List Char) : strcmp a b = 0 ↔ a = b := by
  induction a generalizing b with
  | nil => cases b <;> simp [strcmp]
  | cons x xs ih =>
    cases b with
    | nil => simp [strcmp]
    | cons y ys =>
      by_cases h : x = y
      · simp [strcmp, h, ih]
      · by_cases h2 : x.toNat < y.toNat <;> simp [strcmp, h, h2]

/-- The `strcmp` chain accepts exactly the names of the allow-list. -/
theorem nameMatches_iff (n : List Char) : nameMatches n = true ↔ n ∈ specAllowList := by
  simp [nameMatches, specAllowList, strcmp_eq_zero_iff, or_assoc]

/-- Truncating a name to the buffer bound cannot produce a shorter literal
unless the name is that literal. -/
theorem take_eq_short {l lit : List Char} (h : lit.length < NAME_SIZE - 1) :
    l.take (NAME_SIZE - 1) = lit ↔ l = lit := by
  constructor
  · intro ht
    have hlen : (l.take (NAME_SIZE - 1)).length = lit.length := by rw [ht]
    rw [List.length_take] at hlen
    have : l.length ≤ NAME_SIZE - 1 := by omega
    rw [List.take_of_length_le this] at ht
    exact ht
  · intro hl
    subst hl
    exact List.take_of_length_le (Nat.le_of_lt h)

/-- The truncated name is on the allow-list exactly when the full name is. -/
theorem take_mem_allow (l : List Char) :
    l.take (NAME_SIZE - 1) ∈ specAllowList ↔ l ∈ specAllowList := by
  have h1 := @take_eq_short l "atmel_mxt_ts".data (by decide)
  have h2 := @take_eq_short l "fts_ts".data (by decide)
  have h3 := @take_eq_short l "ft5x46".data (by decide)
  have h4 := @take_eq_short l "synaptics_dsx".data (by decide)
  have h5 := @take_eq_short l "NVTCapacitiveTouchScreen".data (by decide)
  simp only [specAllowList, List.mem_cons, List.mem_singleton, h1, h2, h3, h4, h5, List.not_mem_nil, or_false]

/-- A successful name query was made on a valid descriptor. -/
theorem openRet_ne_neg_one_of_query {e : Entry} (h : querySucceeds e = true) :
    0 ≤ openRet e := by
  unfold querySucceeds EVIOCGNAME at h
  by_cases hfd : openRet e < 0
  · simp [hfd] at h
  · omega

/-- For a character device, the two tests of the loop body hold exactly when
the specification selects the entry. -/
theorem query_match_iff (e : Entry) (hc : e.d_type = DT_CHR) :
    (0 < (EVIOCGNAME (openRet e) e).1 ∧ nameMatches (EVIOCGNAME (openRet e) e).2 = true)
      ↔ specMatch e = true := by
  unfold specMatch querySucceeds
  simp only [hc, decide_True, Bool.true_and, Bool.and_eq_true, decide_eq_true_eq]
  apply and_congr_right
  intro hq
  rw [nameMatches_iff]
  unfold EVIOCGNAME at hq ⊢
  by_cases hfd : openRet e < 0
  · simp [hfd] at hq
  · by_cases hi : 0 < e.ioctlResult
    · simp only [hfd, hi, if_true, if_false]
      exact take_mem_allow e.devName
    · simp [hfd, hi] at hq

/-- The loop breaks at a selected entry, leaving its descriptor open. -/
theorem scan_cons_match (fd : Int) (e : Entry) (rest : List Entry)
    (h : specMatch e = true) :
    scan fd (e :: rest) =
      (openRet e, [Sys.readdir (some e.d_name),
        Sys.openFile ("/dev/input/" ++ e.d_name) O_RDWR (openRet e),
        Sys.ioctl (openRet e) (EVIOCGNAME (openRet e) e).1]) := by
  have hc : e.d_type = DT_CHR := by
    unfold specMatch at h
    simp only [Bool.and_eq_true, decide_eq_true_eq] at h
    exact h.1.1
  have hm := (query_match_iff e hc).mpr h
  simp [scan, hc, hm.1, hm.2]

/-- At a character device that is not selected the loop closes the descriptor
and goes on with `fd = -1`. -/
theorem scan_cons_close (fd : Int) (e : Entry) (rest : List Entry)
    (hc : e.d_type = DT_CHR) (h : specMatch e = false) :
    scan fd (e :: rest) =
      ((scan (-1) rest).1, Sys.readdir (some e.d_name) ::
        Sys.openFile ("/dev/input/" ++ e.d_name) O_RDWR (openRet e) ::
        Sys.ioctl (openRet e) (EVIOCGNAME (openRet e) e).1 ::
        Sys.close (openRet e) :: (scan (-1) rest).2) := by
  have hm : ¬ (0 < (EVIOCGNAME (openRet e) e).1 ∧ nameMatches (EVIOCGNAME (openRet e) e).2 = true) := by
    rw [query_match_iff e hc, h]; simp
  by_cases hq : 0 < (EVIOCGNAME (openRet e) e).1
  · have hn : ¬ nameMatches (EVIOCGNAME (openRet e) e).2 = true := fun hn => hm ⟨hq, hn⟩
    simp [scan, hc, hq, hn]
  · simp [scan, hc, hq]

/-- An entry that is not a character device is only read. -/
theorem scan_cons_skip (fd : Int) (e : Entry) (rest : List Entry)
    (hc : e.d_type ≠ DT_CHR) :
    scan fd (e :: rest) =
      ((scan fd rest).1, Sys.readdir (some e.d_name) :: (scan fd rest).2) := by
  simp [scan, hc]

/-- An entry that is not a character device is never selected. -/
theorem specMatch_of_not_chr {e : Entry} (hc : e.d_type ≠ DT_CHR) : specMatch e = false := by
  simp [specMatch, hc]

/-- The value of `fd` when the loop is left. -/
theorem scan_fst (ents : List Entry) :
    (scan (-1) ents).1 =
      match ents.find? specMatch with
      | some e => openRet e
      | none => -1 := by
  induction ents with
  | nil => simp [scan]
  | cons e rest ih =>
    by_cases hm : specMatch e = true
    · rw [scan_cons_match _ _ _ hm]; simp [List.find?, hm]
    · have hm : specMatch e = false := by simpa using hm
      by_cases hc : e.d_type = DT_CHR
      · rw [scan_cons_close _ _ _ hc hm]; simp [List.find?, hm, ih]
      · rw [scan_cons_skip _ _ _ hc]; simp [List.find?, hm, ih]

/-- Value of `isReaddir` on each action. -/
@[simp]
theorem isReaddir_cases :
    (∀ p ok, isReaddir (Sys.opendir p ok) = false) ∧
    (∀ x, isReaddir (Sys.readdir x) = true) ∧
    (isReaddir (Sys.closedir) = false) ∧
    (∀ p fl r, isReaddir (Sys.openFile p fl r) = false) ∧
    (∀ fd r, isReaddir (Sys.ioctl fd r) = false) ∧
    (∀ fd pl r, isReaddir (Sys.write fd pl r) = false) ∧
    (∀ fd, isReaddir (Sys.close fd) = false) ∧
    (∀ ok, isReaddir (Sys.calloc ok) = false) ∧
    (∀ p f a, isReaddir (Sys.log p f a) = false) := by
  refine ⟨?_, ?_, ?_, ?_, ?_, ?_, ?_, ?_, ?_⟩ <;> intros <;> rfl

/-- Value of `isLog` on each action. -/
@[simp]
theorem isLog_cases :
    (∀ p ok, isLog (Sys.opendir p ok) = false) ∧
    (∀ x, isLog (Sys.readdir x) = false) ∧
    (isLog (Sys.closedir) = false) ∧
    (∀ p fl r, isLog (Sys.openFile p fl r) = false) ∧
    (∀ fd r, isLog (Sys.ioctl fd r) = false) ∧
    (∀ fd pl r, isLog (Sys.write fd pl r) = false) ∧
    (∀ fd, isLog (Sys.close fd) = false) ∧
    (∀ ok, isLog (Sys.calloc ok) = false) ∧
    (∀ p f a, isLog (Sys.log p f a) = true) := by
  refine ⟨?_, ?_, ?_, ?_, ?_, ?_, ?_, ?_, ?_⟩ <;> intros <;> rfl

/-- Value of `isWrite` on each action. -/
@[simp]
theorem isWrite_cases :
    (∀ p ok, isWrite (Sys.opendir p ok) = false) ∧
    (∀ x, isWrite (Sys.readdir x) = false) ∧
    (isWrite (Sys.closedir) = false) ∧
    (∀ p fl r, isWrite (Sys.openFile p fl r) = false) ∧
    (∀ fd r, isWrite (Sys.ioctl fd r) = false) ∧
    (∀ fd pl r, isWrite (Sys.write fd pl r) = true) ∧
    (∀ fd, isWrite (Sys.close fd) = false) ∧
    (∀ ok, isWrite (Sys.calloc ok) = false) ∧
    (∀ p f a, isWrite (Sys.log p f a) = false) := by
  refine ⟨?_, ?_, ?_, ?_, ?_, ?_, ?_, ?_, ?_⟩ <;> intros <;> rfl

/-- Value of `isClose` on each action. -/
@[simp]
theorem isClose_cases :
    (∀ p ok, isClose (Sys.opendir p ok) = false) ∧
    (∀ x, isClose (Sys.readdir x) = false) ∧
    (isClose (Sys.closedir) = false) ∧
    (∀ p fl r, isClose (Sys.openFile p fl r) = false) ∧
    (∀ fd r, isClose (Sys.ioctl fd r) = false) ∧
    (∀ fd pl r, isClose (Sys.write fd pl r) = false) ∧
    (∀ fd, isClose (Sys.close fd) = true) ∧
    (∀ ok, isClose (Sys.calloc ok) = false) ∧
    (∀ p f a, isClose (Sys.log p f a) = false) := by
  refine ⟨?_, ?_, ?_, ?_, ?_, ?_, ?_, ?_, ?_⟩ <;> intros <;> rfl

/-- Dropping the entries that are not character devices changes neither the
result of the loop nor its actions other than `readdir`. -/
theorem scan_filter (ents : List Entry) :
    (scan (-1) (ents.filter isChr)).1 = (scan (-1) ents).1 ∧
    (scan (-1) (ents.filter isChr)).2.filter (fun a => !isReaddir a) =
      (scan (-1) ents).2.filter (fun a => !isReaddir a) := by
  induction ents with
  | nil => simp
  | cons e rest ih =>
    by_cases hc : e.d_type = DT_CHR
    · have hk : isChr e = true := by simp [isChr, hc]
      rw [List.filter_cons_of_pos hk]
      by_cases hm : specMatch e = true
      · rw [scan_cons_match _ _ _ hm, scan_cons_match _ _ _ hm]
        simp
      · have hm : specMatch e = false := by simpa using hm
        rw [scan_cons_close _ _ _ hc hm, scan_cons_close _ _ _ hc hm]
        simp [ih.1, ih.2]
    · have hk : ¬ isChr e = true := by simp [isChr, hc]
      rw [List.filter_cons_of_neg hk, scan_cons_skip _ _ _ hc]
      simp [ih.1, ih.2]

/-- The descriptor of the first selected entry is a valid one. -/
theorem find_match_nonneg {ents : List Entry} {e : Entry}
    (h : ents.find? specMatch = some e) : 0 ≤ openRet e := by
  have hm : specMatch e = true := List.find?_some h
  unfold specMatch at hm
  simp only [Bool.and_eq_true] at hm
  exact openRet_ne_neg_one_of_query hm.1.2

/-- A disciplined trace has at most one open descriptor after each of its
prefixes, and none before a `readdir`. -/
theorem disciplined_take (t : List Sys) : ∀ (s : List Int), disciplined s t = true →
    ∀ n, (List.foldl track s (t.take n)).length ≤ 1 ∧
      ∀ a, t.get? n = some a → isReaddir a = true → List.foldl track s (t.take n) = [] := by
  induction t with
  | nil =>
    intro s h n
    simp only [disciplined, decide_eq_true_eq] at h
    simp [h]
  | cons b t ih =>
    intro s h n
    simp only [disciplined, Bool.and_eq_true, decide_eq_true_eq, Bool.or_eq_true,
      Bool.not_eq_true', List.isEmpty_iff] at h
    obtain ⟨⟨hlen, hrd⟩, hrest⟩ := h
    cases n with
    | zero =>
      refine ⟨by simpa using hlen, ?_⟩
      intro a ha hr
      simp only [List.get?_cons_zero, Option.some.injEq] at ha
      subst ha
      rcases hrd with hrd | hrd
      · rw [hr] at hrd; exact absurd hrd (by simp)
      · simpa using hrd
    | succ n =>
      simpa using ih (track s b) hrest n

/-- A final `closedir` does not affect descriptor discipline. -/
theorem disciplined_append_closedir (t : List Sys) : ∀ (s : List Int),
    disciplined s (t ++ [Sys.closedir]) = disciplined s t := by
  induction t with
  | nil => intro s; simp [disciplined, track]
  | cons b t ih => intro s; simp [disciplined, ih]

/-- A final `closedir` does not affect the open descriptors. -/
theorem foldl_track_append_closedir (t : List Sys) (s : List Int) :
    List.foldl track s (t ++ [Sys.closedir]) = List.foldl track s t := by
  simp [List.foldl_append, track]

/-- The loop is disciplined, and leaves open the descriptor of the first
selected entry only. -/
theorem scan_disciplined (ents : List Entry) : ∀ fd : Int,
    disciplined [] (scan fd ents).2 = true ∧
    List.foldl track [] (scan fd ents).2 =
      match ents.find? specMatch with
      | some e => [openRet e]
      | none => [] := by
  induction ents with
  | nil => intro fd; simp [scan, disciplined, track]
  | cons e rest ih =>
    intro fd
    by_cases hm : specMatch e = true
    · have h0 : 0 ≤ openRet e := by
        unfold specMatch at hm
        simp only [Bool.and_eq_true] at hm
        exact openRet_ne_neg_one_of_query hm.1.2
      rw [scan_cons_match _ _ _ hm]
      simp [disciplined, track, h0, List.find?, hm]
    · have hm : specMatch e = false := by simpa using hm
      by_cases hc : e.d_type = DT_CHR
      · rw [scan_cons_close _ _ _ hc hm]
        have hi := ih (-1)
        by_cases h0 : 0 ≤ openRet e
        · simp [disciplined, track, h0, List.find?, hm, hi.1, hi.2]
        · simp [disciplined, track, h0, List.find?, hm, hi.1, hi.2]
      · rw [scan_cons_skip _ _ _ hc]
        have hi := ih fd
        simp [disciplined, track, List.find?, hm, hi.1, hi.2]

/-- The loop neither opens nor closes a directory stream. -/
theorem scan_dir_free (ents : List Entry) : ∀ (fd : Int) (n : Int),
    List.foldl trackDir n (scan fd ents).2 = n ∧
    (scan fd ents).2.count Sys.closedir = 0 := by
  induction ents with
  | nil => intro fd n; simp [scan, trackDir]
  | cons e rest ih =>
    intro fd n
    by_cases hm : specMatch e = true
    · rw [scan_cons_match _ _ _ hm]; simp [trackDir]
    · have hm : specMatch e = false := by simpa using hm
      by_cases hc : e.d_type = DT_CHR
      · rw [scan_cons_close _ _ _ hc hm]
        simp [trackDir, (ih (-1) n).1, (ih (-1) n).2]
      · rw [scan_cons_skip _ _ _ hc]
        simp [trackDir, (ih fd n).1, (ih fd n).2]

/-- The first selected entry, given by its position. -/
theorem find_first_match (ents : List Entry) : ∀ (k : Nat) (e : Entry),
    ents.get? k = some e → specMatch e = true →
    (∀ j e', j < k → ents.get? j = some e' → specMatch e' = false) →
    ents.find? specMatch = some e := by
  induction ents with
  | nil => intro k e h; simp at h
  | cons x rest ih =>
    intro k e hk hm hbefore
    cases k with
    | zero =>
      simp only [List.get?_cons_zero, Option.some.injEq] at hk
      subst hk
      simp [List.find?, hm]
    | succ k =>
      have hx : specMatch x = false := hbefore 0 x (Nat.succ_pos k) (by simp)
      simp only [List.get?_cons_succ] at hk
      have := ih k e hk hm (fun j e' hj hje => hbefore (j + 1) e' (Nat.succ_lt_succ hj) (by simpa using hje))
      simp [List.find?, hx, this]

/-- The loop performs no `write`. -/
theorem scan_no_write (ents : List Entry) : ∀ fd : Int,
    (scan fd ents).2.filter isWrite = [] := by
  induction ents with
  | nil => intro fd; simp [scan]
  | cons e rest ih =>
    intro fd
    by_cases hm : specMatch e = true
    · rw [scan_cons_match _ _ _ hm]; simp
    · have hm : specMatch e = false := by simpa using hm
      by_cases hc : e.d_type = DT_CHR
      · rw [scan_cons_close _ _ _ hc hm]; simp [ih (-1)]
      · rw [scan_cons_skip _ _ _ hc]; simp [ih fd]

/-- The locator performs no `write`. -/
theorem open_ts_input_no_write (dir : Option (List Entry)) :
    (open_ts_input dir).2.filter isWrite = [] := by
  cases dir with
  | none => simp [open_ts_input]
  | some ents => simp [open_ts_input, scan_no_write]

/-- The loop logs nothing. -/
theorem scan_no_log (ents : List Entry) : ∀ fd : Int,
    (scan fd ents).2.filter isLog = [] := by
  induction ents with
  | nil => intro fd; simp [scan]
  | cons e rest ih =>
    intro fd
    by_cases hm : specMatch e = true
    · rw [scan_cons_match _ _ _ hm]; simp
    · have hm : specMatch e = false := by simpa using hm
      by_cases hc : e.d_type = DT_CHR
      · rw [scan_cons_close _ _ _ hc hm]; simp [ih (-1)]
      · rw [scan_cons_skip _ _ _ hc]; simp [ih fd]

/-- The locator logs nothing. -/
theorem open_ts_input_no_log (dir : Option (List Entry)) :
    (open_ts_input dir).2.filter isLog = [] := by
  cases dir with
  | none => simp [open_ts_input]
  | some ents => simp [open_ts_input, scan_no_log]

/-- Open descriptors of a concatenated trace. -/
theorem openHandles_append (t u : List Sys) :
    openHandles (t ++ u) = List.foldl track (openHandles t) u := by
  simp [openHandles, List.foldl_append]

/-- The entry log line opens and closes nothing. -/
theorem openHandles_featureEntryLog (module : Bool) (feature state : Int) (u : List Sys) :
    openHandles (featureEntryLog module feature state ++ u) = openHandles u := by
  cases module <;> simp [featureEntryLog, openHandles, track]

/-- The descriptors the locator leaves open: the returned one, or none for
`-1`. -/
theorem openHandles_open_ts_input (dir : Option (List Entry)) :
    openHandles (open_ts_input dir).2 =
      (if (open_ts_input dir).1 = -1 then [] else [(open_ts_input dir).1]) := by
  cases dir with
  | none => simp [open_ts_input, openHandles, track]
  | some ents =>
    have hfin := (scan_disciplined ents (-1)).2
    have hf := scan_fst ents
    show List.foldl track []
        (Sys.opendir "/dev/input" true :: ((scan (-1) ents).2 ++ [Sys.closedir])) =
      (if (scan (-1) ents).1 = -1 then [] else [(scan (-1) ents).1])
    simp only [List.foldl_cons, track]
    rw [foldl_track_append_closedir, hfin, hf]
    cases hfind : ents.find? specMatch with
    | none => simp
    | some e =>
      have h0 := find_match_nonneg hfind
      have : openRet e ≠ -1 := by omega
      simp [this]

/-- Trace of the double-tap-to-wake branch when the locator returns a handle.
-/
theorem power_set_feature_found (on_ off : Int) (module : Bool) (state : Int)
    (dir : Option (List Entry)) (wr : Int) (h : (open_ts_input dir).1 ≠ -1) :
    power_set_feature on_ off module POWER_FEATURE_DOUBLE_TAP_TO_WAKE state dir wr =
      featureEntryLog module POWER_FEATURE_DOUBLE_TAP_TO_WAKE state ++ (open_ts_input dir).2 ++
        [Sys.write (open_ts_input dir).1 (Payload.event (wakeEvent on_ off state)) wr,
         Sys.close (open_ts_input dir).1] := by
  by_cases hs : state = 0 <;> simp [power_set_feature, featureEntryLog, wakeEvent, h, hs]

/-- Trace of the double-tap-to-wake branch when the locator returns `-1`. -/
theorem power_set_feature_absent (on_ off : Int) (module : Bool) (state : Int)
    (dir : Option (List Entry)) (wr : Int) (h : (open_ts_input dir).1 = -1) :
    power_set_feature on_ off module POWER_FEATURE_DOUBLE_TAP_TO_WAKE state dir wr =
      featureEntryLog module POWER_FEATURE_DOUBLE_TAP_TO_WAKE state ++ (open_ts_input dir).2 ++
        [Sys.log Prio.warn
          "DT2W won\x27t work because no supported touchscreen input devices were found" []] := by
  simp [power_set_feature, featureEntryLog, h]

/-- Trace of `power_set_feature` on any other feature. -/
theorem power_set_feature_other (on_ off : Int) (module : Bool) (feature state : Int)
    (dir : Option (List Entry)) (wr : Int) (h : feature ≠ POWER_FEATURE_DOUBLE_TAP_TO_WAKE) :
    power_set_feature on_ off module feature state dir wr =
      featureEntryLog module feature state := by
  simp [power_set_feature, featureEntryLog, h]

/-- The entry log line is no `write`. -/
theorem filter_featureEntryLog_isWrite (module : Bool) (feature state : Int) :
    (featureEntryLog module feature state).filter isWrite = [] := by
  cases module <;> simp [featureEntryLog]

/-- The entry log line is a log line. -/
theorem filter_featureEntryLog_isLog (module : Bool) (feature state : Int) :
    (featureEntryLog module feature state).filter isLog =
      featureEntryLog module feature state := by
  cases module <;> simp [featureEntryLog]

/-- The entry log line is no action other than a log line. -/
theorem effects_featureEntryLog (module : Bool) (feature state : Int) :
    effects (featureEntryLog module feature state) = [] := by
  cases module <;> simp [featureEntryLog, effects]

/-- The name test of `power_open` holds exactly for the module identifier. -/
theorem strcmp_module_id (name : String) :
    strcmp name.data POWER_HARDWARE_MODULE_ID.data = 0 ↔ name = POWER_HARDWARE_MODULE_ID := by
  rw [strcmp_eq_zero_iff]
  exact ⟨fun h => String.ext h, fun h => by rw [h]⟩

/-- Result of `power_open` on the module identifier when `calloc` succeeds. -/
theorem power_open_match (module : Bool) (name : String) (device : Option power_module_t)
    (h : name = POWER_HARDWARE_MODULE_ID) :
    (power_open module name device true).1 = 0 ∧
    (power_open module name device true).2.1 = some
      { tag := HARDWARE_DEVICE_TAG, module_api_version := POWER_MODULE_API_VERSION_0_3,
        hal_api_version := HARDWARE_HAL_API_VERSION,
        init := some Handler.power_init,
        setInteractive := some Handler.power_set_interactive,
        setFeature := some Handler.power_set_feature,
        powerHint := some Handler.power_hint,
        get_number_of_platform_modes := none, get_platform_low_power_stats := none,
        get_voter_list := none } := by
  have hs := (strcmp_module_id name).mpr h
  simp [power_open, hs, zeroed]

/-! ## The claims -/

/-- C1: with `/dev/input` given as the list of its entries in enumeration order,
`open_ts_input` returns the handle of the first entry that is a character
device, whose name query succeeds and whose name is one of the five allow-list
names, and `-1` exactly when the directory cannot be opened or no entry is
selected; entries that are not character devices are skipped (dropping them
changes neither the result nor any action other than the `readdir` calls). -/
theorem open_ts_input_first_match (dir : Option (List Entry)) :
    (open_ts_input dir).1 = specLocate dir ∧
    ((open_ts_input dir).1 = -1 ↔
      (dir = none ∨ ∃ ents, dir = some ents ∧ ∀ e ∈ ents, specMatch e = false)) ∧
    (open_ts_input (dir.map (List.filter isChr))).1 = (open_ts_input dir).1 ∧
    (open_ts_input (dir.map (List.filter isChr))).2.filter (fun a => !isReaddir a) =
      (open_ts_input dir).2.filter (fun a => !isReaddir a) := by
  cases dir with
  | none => simp [open_ts_input, specLocate]
  | some ents =>
    have hf := scan_fst ents
    have hs := scan_filter ents
    refine ⟨?_, ?_, ?_, ?_⟩
    · simpa [open_ts_input, specLocate] using hf
    · simp only [open_ts_input, hf, false_or, Option.some.injEq, exists_eq_left', reduceCtorEq]
      cases hfind : ents.find? specMatch with
      | none =>
        simp only [true_iff]
        intro e he
        have := List.find?_eq_none.mp hfind e he
        simpa using this
      | some e =>
        have h0 := find_match_nonneg hfind
        have hm : specMatch e = true := List.find?_some hfind
        have hmem : e ∈ ents := List.mem_of_find?_eq_some hfind
        constructor
        · intro h; simp only at h; omega
        · intro h; rw [h e hmem] at hm; exact absurd hm (by simp)
    · simpa [open_ts_input] using hs.1
    · simp [open_ts_input, hs.2]

/-- C6: during the scan of `open_ts_input` at most one device descriptor is
open at any point, none is open whenever the next directory entry is read (an
opened descriptor that is not selected has been closed by then), and when the
call returns the descriptors opened and left open are exactly the returned one
if a match was found and none if `-1` is returned; with only the `k`-th entry
matching that is the `k`-th entry's descriptor.  The directory stream, when
one was opened, is closed exactly once, as the last action. -/
theorem open_ts_input_handle_discipline (dir : Option (List Entry)) :
    (∀ n, (openHandles ((open_ts_input dir).2.take n)).length ≤ 1) ∧
    (∀ n a, (open_ts_input dir).2.get? n = some a → isReaddir a = true →
      openHandles ((open_ts_input dir).2.take n) = []) ∧
    openHandles (open_ts_input dir).2 =
      (if (open_ts_input dir).1 = -1 then [] else [(open_ts_input dir).1]) ∧
    (∀ ents k e, dir = some ents → ents.get? k = some e → specMatch e = true →
      (∀ j e', j < k → ents.get? j = some e' → specMatch e' = false) →
      (open_ts_input dir).1 = openRet e ∧ openHandles (open_ts_input dir).2 = [openRet e]) ∧
    openDirs (open_ts_input dir).2 = 0 ∧
    (open_ts_input dir).2.count Sys.closedir = (if dir.isSome then 1 else 0) ∧
    (open_ts_input dir).2.getLast? =
      some (if dir.isSome then Sys.closedir else Sys.opendir "/dev/input" false) := by
  cases dir with
  | none =>
    refine ⟨?_, ?_, ?_, ?_, ?_, ?_, ?_⟩
    · intro n
      cases n <;> simp [open_ts_input, openHandles, track]
    · intro n a h hr
      cases n with
      | zero =>
        simp only [open_ts_input, List.get?_cons_zero, Option.some.injEq] at h
        subst h
        simp at hr
      | succ n => simp [open_ts_input] at h
    · simp [open_ts_input, openHandles, track]
    · intro ents k e h; simp at h
    · simp [open_ts_input, openDirs, trackDir]
    · simp [open_ts_input]
    · simp [open_ts_input]
  | some ents =>
    have hd := (scan_disciplined ents (-1)).1
    have hf := scan_fst ents
    have hdir := scan_dir_free ents (-1)
    have hall : disciplined [] (open_ts_input (some ents)).2 = true := by
      show disciplined []
        (Sys.opendir "/dev/input" true :: ((scan (-1) ents).2 ++ [Sys.closedir])) = true
      simp only [disciplined, List.length_nil, Nat.zero_le, decide_True,
        Bool.true_and, List.isEmpty_nil, Bool.or_true, track]
      rw [disciplined_append_closedir]
      exact hd
    have hlast := openHandles_open_ts_input (some ents)
    refine ⟨?_, ?_, hlast, ?_, ?_, ?_, ?_⟩
    · intro n
      exact (disciplined_take _ [] hall n).1
    · intro n a h hr
      exact (disciplined_take _ [] hall n).2 a h hr
    · intro ents' k e hdir' hk hm hbefore
      simp only [Option.some.injEq] at hdir'
      subst hdir'
      have hfind := find_first_match ents k e hk hm hbefore
      have h0 := find_match_nonneg hfind
      have hr : (open_ts_input (some ents)).1 = openRet e := by
        simp [open_ts_input, hf, hfind]
      refine ⟨hr, ?_⟩
      rw [hlast, hr]
      have : openRet e ≠ -1 := by omega
      simp [this]
    · simp only [open_ts_input, openDirs, List.foldl_cons, trackDir, List.foldl_append,
        List.foldl_nil]
      rw [(hdir _).1]
      simp
    · simp [open_ts_input, List.count_cons, (hdir 0).2]
    · simp [open_ts_input, List.getLast?_cons, List.getLast?_append]

/-- C2: for every state, when `open_ts_input` returns a device handle,
`power_set_feature` with the double-tap-to-wake feature performs the locator's
actions, then one `write` of an event with type `EV_SYN`, code `SYN_CONFIG` and
the wake-mode value (on for a non-zero state, off for state zero) to that
handle, then `close` of that handle; this is the only `write` of the call and
no device handle stays open. -/
theorem power_set_feature_dt2w_event (on_ off : Int) (module : Bool) (state : Int)
    (dir : Option (List Entry)) (wr : Int) (h : (open_ts_input dir).1 ≠ -1) :
    (∃ pre, power_set_feature on_ off module POWER_FEATURE_DOUBLE_TAP_TO_WAKE state dir wr =
      pre ++ [Sys.write (open_ts_input dir).1 (Payload.event
          { type := EV_SYN, code := SYN_CONFIG, value := if state = 0 then off else on_ }) wr,
        Sys.close (open_ts_input dir).1]) ∧
    (power_set_feature on_ off module POWER_FEATURE_DOUBLE_TAP_TO_WAKE state dir wr).filter
        isWrite =
      [Sys.write (open_ts_input dir).1 (Payload.event
        { type := EV_SYN, code := SYN_CONFIG, value := if state = 0 then off else on_ }) wr] ∧
    openHandles
      (power_set_feature on_ off module POWER_FEATURE_DOUBLE_TAP_TO_WAKE state dir wr) = [] := by
  have ht := power_set_feature_found on_ off module state dir wr h
  refine ⟨⟨_, ht⟩, ?_, ?_⟩
  · rw [ht]
    simp [List.filter_append, filter_featureEntryLog_isWrite, open_ts_input_no_write, wakeEvent]
  · rw [ht, List.append_assoc, openHandles_featureEntryLog, openHandles_append,
      openHandles_open_ts_input]
    simp [h, track]

/-- C7: for every state, when `open_ts_input` returns `-1`, `power_set_feature`
with the double-tap-to-wake feature ends with the warning log line and
returns; after the locator's own actions it performs nothing but that log
line, the call makes no `write`, and no device handle is left open. -/
theorem power_set_feature_dt2w_absent (on_ off : Int) (module : Bool) (state : Int)
    (dir : Option (List Entry)) (wr : Int) (h : (open_ts_input dir).1 = -1) :
    power_set_feature on_ off module POWER_FEATURE_DOUBLE_TAP_TO_WAKE state dir wr =
      featureEntryLog module POWER_FEATURE_DOUBLE_TAP_TO_WAKE state ++ (open_ts_input dir).2 ++
        [Sys.log Prio.warn
          "DT2W won\x27t work because no supported touchscreen input devices were found" []] ∧
    effects (power_set_feature on_ off module POWER_FEATURE_DOUBLE_TAP_TO_WAKE state dir wr) =
      effects (open_ts_input dir).2 ∧
    (power_set_feature on_ off module POWER_FEATURE_DOUBLE_TAP_TO_WAKE state dir wr).filter
      isWrite = [] ∧
    openHandles
      (power_set_feature on_ off module POWER_FEATURE_DOUBLE_TAP_TO_WAKE state dir wr) = [] := by
  have ht := power_set_feature_absent on_ off module state dir wr h
  refine ⟨ht, ?_, ?_, ?_⟩
  · rw [ht]
    have := effects_featureEntryLog module POWER_FEATURE_DOUBLE_TAP_TO_WAKE state
    simp only [effects] at this ⊢
    simp [List.filter_append, this]
  · rw [ht]
    simp [List.filter_append, filter_featureEntryLog_isWrite, open_ts_input_no_write]
  · rw [ht, List.append_assoc, openHandles_featureEntryLog, openHandles_append,
      openHandles_open_ts_input]
    simp [h, track]

/-- C8: for every feature identifier other than double-tap-to-wake and every
hint identifier other than sustained-performance and VR-mode,
`power_set_feature` and `power_hint` perform no action besides log lines: the
directory is not scanned and nothing is opened, written or closed, whatever
the system would have answered. -/
theorem unrecognized_ids_no_effect (on_ off : Int) (module : Bool) (feature state : Int)
    (dir : Option (List Entry)) (wr : Int) (hint : Int) (data : Option Int) :
    (feature ≠ POWER_FEATURE_DOUBLE_TAP_TO_WAKE →
      effects (power_set_feature on_ off module feature state dir wr) = [] ∧
      power_set_feature on_ off module feature state dir wr =
        featureEntryLog module feature state) ∧
    (hint ≠ POWER_HINT_SUSTAINED_PERFORMANCE → hint ≠ POWER_HINT_VR_MODE →
      power_hint module hint data = []) := by
  constructor
  · intro h
    rw [power_set_feature_other on_ off module feature state dir wr h]
    exact ⟨effects_featureEntryLog module feature state, rfl⟩
  · intro h1 h2
    simp [power_hint, h1, h2]

theorem power_set_feature_dt2w_event_witness :
    (open_ts_input (some [devKeys, devDir, devBusy, devTouch])).1 ≠ -1 ∧
    (power_set_feature 5 4 true POWER_FEATURE_DOUBLE_TAP_TO_WAKE 1
        (some [devKeys, devDir, devBusy, devTouch]) 24).filter isWrite =
      [Sys.write 7 (Payload.event { type := EV_SYN, code := SYN_CONFIG, value := 5 }) 24] :=
  ⟨by decide,
   (power_set_feature_dt2w_event 5 4 true 1 (some [devKeys, devDir, devBusy, devTouch]) 24
      (by decide)).2.1⟩

theorem power_set_feature_dt2w_absent_witness :
    (open_ts_input (some [devKeys, devDir, devBusy])).1 = -1 ∧
    openHandles (power_set_feature 5 4 true POWER_FEATURE_DOUBLE_TAP_TO_WAKE 1
        (some [devKeys, devDir, devBusy]) 24) = [] :=
  ⟨by decide,
   (power_set_feature_dt2w_absent 5 4 true 1 (some [devKeys, devDir, devBusy]) 24
      (by decide)).2.2.2⟩

/-- Counterexample to C9 as stated: called with a null module pointer, the
sustained-performance hint with parameter 1 logs nothing; the trace is empty. -/
theorem power_hint_null_module_silent :
    power_hint false POWER_HINT_SUSTAINED_PERFORMANCE (some 1) = [] ∧
    Sys.log Prio.info "POWER_HINT_SUSTAINED_PERFORMANCE, on" [] ∉
      power_hint false POWER_HINT_SUSTAINED_PERFORMANCE (some 1) := by
  constructor
  · rfl
  · intro h
    have : power_hint false POWER_HINT_SUSTAINED_PERFORMANCE (some 1) = [] := rfl
    rw [this] at h
    exact absurd h (List.not_mem_nil _)

/-- C9 (amended): `power_hint` with the sustained-performance or the VR-mode
identifier reads the optional parameter (absent data counts as 0) and, when the
module pointer is non-null, logs exactly one line for that hint, "on" for a
non-zero parameter and "off" for zero or absent data; with a null module
pointer it logs nothing.  In every case no action other than a log line is
performed. -/
theorem power_hint_logs_transition (module : Bool) (data : Option Int) :
    power_hint module POWER_HINT_SUSTAINED_PERFORMANCE data =
      (if module then
        [Sys.log Prio.info
          (if data.getD 0 ≠ 0 then "POWER_HINT_SUSTAINED_PERFORMANCE, on"
            else "POWER_HINT_SUSTAINED_PERFORMANCE, off") []]
       else []) ∧
    power_hint module POWER_HINT_VR_MODE data =
      (if module then
        [Sys.log Prio.info
          (if data.getD 0 ≠ 0 then "POWER_HINT_VR_MODE, on" else "POWER_HINT_VR_MODE, off") []]
       else []) ∧
    effects (power_hint module POWER_HINT_SUSTAINED_PERFORMANCE data) = [] ∧
    effects (power_hint module POWER_HINT_VR_MODE data) = [] := by
  have hne : POWER_HINT_VR_MODE ≠ POWER_HINT_SUSTAINED_PERFORMANCE := by decide
  cases module <;> cases data with
  | none => simp [power_hint, effects, hne]
  | some v => by_cases hv : v = 0 <;> simp [power_hint, effects, hne, hv]

/-- Counterexample to C10 as stated: when the double-tap-to-wake event write
fails (returns `-1`), `power_set_feature` logs nothing about it; its only log
line is the entry line, the same as when the write succeeds. -/
theorem power_set_feature_write_failure_unlogged :
    (power_set_feature 5 4 true POWER_FEATURE_DOUBLE_TAP_TO_WAKE 1 (some [devTouch]) (-1)).filter
        isLog =
      [Sys.log Prio.info "power_set_feature feature:%d, state:%d" [Arg.int 1, Arg.int 1]] ∧
    (power_set_feature 5 4 true POWER_FEATURE_DOUBLE_TAP_TO_WAKE 1 (some [devTouch]) (-1)).filter
        isLog =
      (power_set_feature 5 4 true POWER_FEATURE_DOUBLE_TAP_TO_WAKE 1 (some [devTouch]) 24).filter
        isLog := by
  constructor <;> decide

/-- C10 (amended): a failed payload write in `sysfs_write` is logged, the file
is still closed and `-1` is returned to the caller; a failed double-tap-to-wake
event write in `power_set_feature` is not logged (the log lines of the call do
not depend on the write result), the device handle is still closed, and the
call returns normally with nothing reported. -/
theorem write_failure_handling (path : String) (s : List Char) (n : Nat) (len : Int)
    (on_ off : Int) (module : Bool) (state : Int) (dir : Option (List Entry)) (wr : Int) :
    (len < 0 →
      (sysfs_write path s (some n) len).1 = -1 ∧
      (sysfs_write path s (some n) len).2 =
        [Sys.openFile path O_WRONLY n, Sys.write n (Payload.str s (strlen s)) len,
         Sys.log Prio.error "Error writing to %s: %s\n" [Arg.str path, Arg.strerror],
         Sys.close n] ∧
      openHandles (sysfs_write path s (some n) len).2 = []) ∧
    ((open_ts_input dir).1 ≠ -1 → wr < 0 →
      (power_set_feature on_ off module POWER_FEATURE_DOUBLE_TAP_TO_WAKE state dir wr).filter
          isLog =
        featureEntryLog module POWER_FEATURE_DOUBLE_TAP_TO_WAKE state ∧
      (power_set_feature on_ off module POWER_FEATURE_DOUBLE_TAP_TO_WAKE state dir wr).getLast? =
        some (Sys.close (open_ts_input dir).1) ∧
      openHandles
        (power_set_feature on_ off module POWER_FEATURE_DOUBLE_TAP_TO_WAKE state dir wr) = []) := by
  constructor
  · intro hlen
    have h0 : ¬ ((n : Int) < 0) := by omega
    simp [sysfs_write, h0, hlen, openHandles, track]
  · intro h _
    have ht := power_set_feature_found on_ off module state dir wr h
    refine ⟨?_, ?_, ?_⟩
    · rw [ht]
      simp [List.filter_append, filter_featureEntryLog_isLog, open_ts_input_no_log]
    · rw [ht]
      simp [List.getLast?_append]
    · rw [ht, List.append_assoc, openHandles_featureEntryLog, openHandles_append,
        openHandles_open_ts_input]
      simp [h, track]

theorem write_failure_handling_witness :
    ((-1 : Int) < 0 ∧ (sysfs_write "/sys/power/state" "mem".data (some 3) (-1)).1 = -1) ∧
    ((open_ts_input (some [devTouch])).1 ≠ -1 ∧
      openHandles
        (power_set_feature 5 4 true POWER_FEATURE_DOUBLE_TAP_TO_WAKE 0 (some [devTouch]) (-1))
        = []) :=
  ⟨⟨by decide,
    ((write_failure_handling "/sys/power/state" "mem".data 3 (-1) 5 4 true 0
      (some [devTouch]) (-1)).1 (by decide)).1⟩,
   ⟨by decide,
    ((write_failure_handling "/sys/power/state" "mem".data 3 (-1) 5 4 true 0
      (some [devTouch]) (-1)).2 (by decide) (by decide)).2.2⟩⟩

/-- C3: every call of `power_open` whose name equals `POWER_HARDWARE_MODULE_ID`
and whose allocation succeeds returns 0 and stores through the output
parameter a record whose `init`, `setInteractive`, `setFeature` and `powerHint`
entries are `power_init`, `power_set_interactive`, `power_set_feature` and
`power_hint` (so non-null) and whose `get_number_of_platform_modes` and
`get_platform_low_power_stats` entries are null. -/
theorem power_open_success (module : Bool) (name : String) (device : Option power_module_t)
    (h : name = POWER_HARDWARE_MODULE_ID) :
    (power_open module name device true).1 = 0 ∧
    ∃ dev, (power_open module name device true).2.1 = some dev ∧
      dev.init = some Handler.power_init ∧
      dev.setInteractive = some Handler.power_set_interactive ∧
      dev.setFeature = some Handler.power_set_feature ∧
      dev.powerHint = some Handler.power_hint ∧
      dev.get_number_of_platform_modes = none ∧
      dev.get_platform_low_power_stats = none := by
  obtain ⟨h1, h2⟩ := power_open_match module name device h
  exact ⟨h1, _, h2, rfl, rfl, rfl, rfl, rfl, rfl⟩

theorem power_open_success_witness :
    "power" = POWER_HARDWARE_MODULE_ID ∧ (power_open true "power" none true).1 = 0 :=
  ⟨rfl, (power_open_success true "power" none rfl).1⟩

/-- C4: `power_open` returns `-EINVAL` exactly when the requested name differs
from `POWER_HARDWARE_MODULE_ID`, and `-ENOMEM` exactly when the name matches
and the allocation fails; in both error cases the output handle keeps the
value it had before the call, and on a name mismatch no allocation is
attempted. -/
theorem power_open_errors (module : Bool) (name : String) (device : Option power_module_t)
    (alloc : Bool) :
    ((power_open module name device alloc).1 = -EINVAL ↔ name ≠ POWER_HARDWARE_MODULE_ID) ∧
    ((power_open module name device alloc).1 = -ENOMEM ↔
      (name = POWER_HARDWARE_MODULE_ID ∧ alloc = false)) ∧
    (((power_open module name device alloc).1 = -EINVAL ∨
        (power_open module name device alloc).1 = -ENOMEM) →
      (power_open module name device alloc).2.1 = device) ∧
    (name ≠ POWER_HARDWARE_MODULE_ID →
      ∀ ok, Sys.calloc ok ∉ (power_open module name device alloc).2.2) := by
  by_cases h : name = POWER_HARDWARE_MODULE_ID
  · have hs := (strcmp_module_id name).mpr h
    cases alloc
    · have hr : power_open module name device false =
          (-ENOMEM, device, (if module then
              [Sys.log Prio.info "%s: enter; name=%s" [Arg.str "power_open", Arg.str name]]
            else []) ++ [Sys.calloc false] ++
            [Sys.log Prio.debug "%s: exit %d" [Arg.str "power_open", Arg.int (-ENOMEM)]]) := by
        simp only [power_open, hs, if_true]
        simp
      rw [hr]
      simp [h, EINVAL, ENOMEM]
    · have hr := (power_open_match module name device h).1
      rw [hr]
      simp [h, EINVAL, ENOMEM]
  · have hs : ¬ strcmp name.data POWER_HARDWARE_MODULE_ID.data = 0 :=
      fun hs => h ((strcmp_module_id name).mp hs)
    have hr : power_open module name device alloc =
        (-EINVAL, device, (if module then
            [Sys.log Prio.info "%s: enter; name=%s" [Arg.str "power_open", Arg.str name]]
          else []) ++
          [Sys.log Prio.debug "%s: exit %d" [Arg.str "power_open", Arg.int (-EINVAL)]]) := by
      simp only [power_open, hs, if_false]
    rw [hr]
    cases module <;> simp [h, EINVAL, ENOMEM]

/-- C5: when opening the path fails `sysfs_write` returns `-1` and performs no
`write` and no `close` (its only action besides the log line is the failed
`open`); otherwise it performs, besides log lines, exactly the `open`, one
`write` of the whole payload (`strlen` bytes) and one `close` of the opened
descriptor, in this order, leaves no descriptor open, and returns `-1` if the
write result is negative and `0` otherwise, a short write included. -/
theorem sysfs_write_contract (path : String) (s : List Char) (n : Nat) (len : Int) :
    (sysfs_write path s none len).1 = -1 ∧
    effects (sysfs_write path s none len).2 = [Sys.openFile path O_WRONLY (-1)] ∧
    (sysfs_write path s (some n) len).1 = (if len < 0 then -1 else 0) ∧
    effects (sysfs_write path s (some n) len).2 =
      [Sys.openFile path O_WRONLY n, Sys.write n (Payload.str s (strlen s)) len,
       Sys.close n] ∧
    openHandles (sysfs_write path s (some n) len).2 = [] ∧
    (0 ≤ len → len < strlen s → (sysfs_write path s (some n) len).1 = 0) := by
  have h0 : ¬ ((n : Int) < 0) := by omega
  by_cases hlen : len < 0
  · refine ⟨?_, ?_, ?_, ?_, ?_, ?_⟩ <;>
      simp [sysfs_write, effects, h0, hlen, openHandles, track]
  · refine ⟨?_, ?_, ?_, ?_, ?_, ?_⟩ <;>
      simp [sysfs_write, effects, h0, hlen, openHandles, track]

theorem sysfs_write_contract_witness :
    (sysfs_write "/sys/power/state" "mem".data (some 3) 1).1 = 0 :=
  (sysfs_write_contract "/sys/power/state" "mem".data 3 1).2.2.2.2.2 (by decide) (by decide)

theorem open_ts_input_first_match_witness :
    (open_ts_input (some [devKeys, devDir, devBusy, devTouch, devTouch])).1 = 7 ∧
    (open_ts_input (some [devKeys, devDir, devBusy])).1 = -1 :=
  ⟨(open_ts_input_first_match (some [devKeys, devDir, devBusy, devTouch, devTouch])).1.trans
      (by decide),
   (open_ts_input_first_match (some [devKeys, devDir, devBusy])).1.trans (by decide)⟩

theorem open_ts_input_handle_discipline_witness :
    (open_ts_input (some [devKeys, devDir, devBusy, devTouch, devKeys])).1 = openRet devTouch ∧
    openHandles (open_ts_input (some [devKeys, devDir, devBusy, devTouch, devKeys])).2 =
      [openRet devTouch] :=
  (open_ts_input_handle_discipline (some [devKeys, devDir, devBusy, devTouch, devKeys])).2.2.2.1
    [devKeys, devDir, devBusy, devTouch, devKeys] 3 devTouch rfl rfl (by decide)
    (by
      intro j e hj h
      interval_cases j <;> simp only [List.get?] at h <;>
        simp only [Option.some.injEq] at h <;> subst h <;> decide)

theorem unrecognized_ids_no_effect_witness :
    ((0 : Int) ≠ POWER_FEATURE_DOUBLE_TAP_TO_WAKE ∧
      effects (power_set_feature 5 4 true 0 1 (some [devTouch]) 24) = []) ∧
    ((2 : Int) ≠ POWER_HINT_SUSTAINED_PERFORMANCE ∧ (2 : Int) ≠ POWER_HINT_VR_MODE ∧
      power_hint true 2 (some 1) = []) :=
  ⟨⟨by decide,
    ((unrecognized_ids_no_effect 5 4 true 0 1 (some [devTouch]) 24 2 (some 1)).1
      (by decide)).1⟩,
   ⟨by decide, by decide,
    (unrecognized_ids_no_effect 5 4 true 0 1 (some [devTouch]) 24 2 (some 1)).2
      (by decide) (by decide)⟩⟩

theorem power_open_errors_witness :
    (power_open true "sensors" none true).1 = -EINVAL ∧
    (power_open true "sensors" none true).2.1 = none :=
  ⟨(power_open_errors true "sensors" none true).1.mpr (by decide),
   (power_open_errors true "sensors" none true).2.2.1
    (Or.inl ((power_open_errors true "sensors" none true).1.mpr (by decide)))⟩

end MtkPower
